import Mathlib

/-!
# Verification of the NES emulator core against its specification

Shallow embedding of the emulator's Rust source (DiscoViking/nes) in Lean 4.
Machine integers (u8/u16/u64) are modelled as `Nat` with explicit masking or
modular reduction wherever the source can wrap; `panic!` paths are modelled by
`Option`, with `none` standing for a panic.  Memory managers and I/O sinks are
modelled as read functions (`Nat → Nat`) and output lists respectively.
-/

/-- The 16-bit complement, the Rust `!mask` on a `u16` operand. -/
def not16 (x : Nat) : Nat := 0xFFFF ^^^ x

namespace Ppu

/-- The PPU register and pipeline state, from `src/emulator/ppu/mod.rs`
(`struct PPU`).  The video output sink is modelled as the list of emitted
colour bytes; the memory `Manager` is modelled by its read function.
The two write latches (`ppuscroll_latch`, `ppuaddr_latch`) live in the
`latch` module, which is not part of the register/tick paths modelled here
and carry no data used by `tick`, so they are omitted. -/
structure PPU where
  ppuctrl : Nat
  ppumask : Nat
  ppustatus : Nat
  oamaddr : Nat
  memory : Nat → Nat
  v : Nat
  t : Nat
  fine_x : Nat
  tile_register_low : Nat
  tile_register_high : Nat
  tile_latch_low : Nat
  tile_latch_high : Nat
  attribute_register_1 : Nat
  attribute_register_2 : Nat
  attribute_latch_1 : Nat
  attribute_latch_2 : Nat
  scanline : Nat
  cycle : Nat
  tmp_pattern_coords : Nat
  pattern_table_side : Nat
  output : List Nat

/-- Source `ppu::new` (field initial values; `scanline` starts at 261). -/
def PPU.new (memory : Nat → Nat) : PPU :=
  { ppuctrl := 0
    ppumask := 0
    ppustatus := 0
    oamaddr := 0
    memory := memory
    v := 0
    t := 0
    fine_x := 0
    tile_register_low := 0
    tile_register_high := 0
    tile_latch_low := 0
    tile_latch_high := 0
    attribute_register_1 := 0
    attribute_register_2 := 0
    attribute_latch_1 := 0
    attribute_latch_2 := 0
    scanline := 261
    cycle := 0
    tmp_pattern_coords := 0
    pattern_table_side := 0
    output := [] }

/-- Source `PPU::fine_y_scroll`: `(v >> 12) & 0b111`. -/
def PPU.fine_y_scroll (s : PPU) : Nat := (s.v >>> 12) &&& 0b111

/-- Source `PPU::nametable_select`: `(v >> 10) & 0b11`. -/
def PPU.nametable_select (s : PPU) : Nat := (s.v >>> 10) &&& 0b11

/-- Source `PPU::coarse_y_scroll`: `(v >> 5) & 0b11111`. -/
def PPU.coarse_y_scroll (s : PPU) : Nat := (s.v >>> 5) &&& 0b11111

/-- Source `PPU::coarse_x_scroll`: `v & 0b11111`. -/
def PPU.coarse_x_scroll (s : PPU) : Nat := s.v &&& 0b11111

/-- Source `PPU::tile_address`: `0x2000 | (v & 0x0FFF)`. -/
def PPU.tile_address (s : PPU) : Nat := 0x2000 ||| (s.v &&& 0x0FFF)

/-- Source `PPU::attribute_address`:
`0x23C0 | self.nametable_select() | ((v >> 4) & 0x38) | ((v >> 2) & 0x07)`. -/
def PPU.attribute_address (s : PPU) : Nat :=
  0x23C0 ||| s.nametable_select ||| ((s.v >>> 4) &&& 0x38) ||| ((s.v >>> 2) &&& 0x07)

/-- The attribute-address formula as the spec states it:
`0x23C0 | (v & 0x0C00) | ((v >> 4) & 0x38) | ((v >> 2) & 0x07)`. -/
def spec_attribute_address (v : Nat) : Nat :=
  0x23C0 ||| (v &&& 0x0C00) ||| ((v >>> 4) &&& 0x38) ||| ((v >>> 2) &&& 0x07)

/-- Source `PPU::pattern_address_low`. -/
def PPU.pattern_address_low (s : PPU) : Nat :=
  (s.pattern_table_side <<< 12) ||| (s.tmp_pattern_coords <<< 4) ||| 0b0000 ||| s.fine_y_scroll

/-- Source `PPU::pattern_address_high`. -/
def PPU.pattern_address_high (s : PPU) : Nat :=
  (s.pattern_table_side <<< 12) ||| (s.tmp_pattern_coords <<< 4) ||| 0b1000 ||| s.fine_y_scroll

/-- Source `PPU::rendering_is_enabled`: `ppumask & 0b0001_1000 != 0`. -/
def PPU.rendering_is_enabled (s : PPU) : Bool := (s.ppumask &&& 0b00011000) != 0

/-- Source `PPU::reload_shift_registers`. -/
def PPU.reload_shift_registers (s : PPU) : PPU :=
  { s with
    tile_register_low := (s.tile_register_low &&& 0x00FF) ||| (s.tile_latch_low <<< 8)
    tile_register_high := (s.tile_register_high &&& 0x00FF) ||| (s.tile_latch_high <<< 8)
    attribute_register_1 := s.attribute_latch_1
    attribute_register_2 := s.attribute_latch_2 }

/-- Source `PPU::shift_registers`: shift both tile registers right by one. -/
def PPU.shift_registers (s : PPU) : PPU :=
  { s with
    tile_register_low := s.tile_register_low >>> 1
    tile_register_high := s.tile_register_high >>> 1 }

/-- Source `PPU::fetch_tile_data`: the four in-turn fetches keyed on `cycle % 8`. -/
def PPU.fetch_tile_data (s : PPU) : PPU :=
  match s.cycle % 8 with
  | 1 => { s with tmp_pattern_coords := s.memory s.tile_address }
  | 3 => s
  | 5 => { s with tile_latch_low := s.memory s.pattern_address_low }
  | 7 => { s with tile_latch_high := s.memory s.pattern_address_high }
  | _ => s

/-- The 2-bit background colour index computed inside `PPU::render_pixel`:
`let colour_index = (bg_high_bit << 1) & bg_low_bit;` where the two bits are
taken at bit `fine_x` of the two background pattern shift registers. -/
def PPU.colour_index (s : PPU) : Nat :=
  let bg_low_bit := (s.tile_register_low >>> s.fine_x) &&& 1
  let bg_high_bit := (s.tile_register_high >>> s.fine_x) &&& 1
  (bg_high_bit <<< 1) &&& bg_low_bit

/-- The colour index as the spec states it: the high pattern bit shifted left
by one ORed with the low pattern bit. -/
def spec_colour_index (s : PPU) : Nat :=
  let bg_low_bit := (s.tile_register_low >>> s.fine_x) &&& 1
  let bg_high_bit := (s.tile_register_high >>> s.fine_x) &&& 1
  (bg_high_bit <<< 1) ||| bg_low_bit

/-- Source `PPU::render_pixel`: maps the colour index through the hardcoded palette
(`c1 = 0x00`, `c2 = 0x0F`, `c3 = 0xFF`); any other index panics (`none`). -/
def PPU.render_pixel (s : PPU) : Option Nat :=
  match s.colour_index with
  | 0 => some 0x00
  | 1 => some 0x00
  | 2 => some 0x0F
  | 3 => some 0xFF
  | _ => none

/-- Source `PPU::increment_coarse_x`. -/
def PPU.increment_coarse_x (s : PPU) : PPU :=
  if s.coarse_x_scroll = 31 then
    let s := { s with v := s.v &&& not16 0x001F }
    { s with v := s.v ^^^ 0x0400 }
  else
    { s with v := s.v + 1 }

/-- Source `PPU::increment_y`. -/
def PPU.increment_y (s : PPU) : PPU :=
  if s.fine_y_scroll < 7 then
    { s with v := s.v + 0x100 }
  else
    let s := { s with v := s.v &&& not16 0x700 }
    let coarse_y := s.coarse_y_scroll
    let p : PPU × Nat :=
      if coarse_y = 29 then ({ s with v := s.v ^^^ 0x0800 }, 0)
      else if coarse_y = 31 then (s, 0)
      else (s, coarse_y + 1)
    { p.1 with v := (p.1.v &&& not16 0x03E0) ||| (p.2 <<< 5) }

/-- Source `PPU::handle_scrolling`. -/
def PPU.handle_scrolling (s : PPU) : PPU :=
  if ¬s.rendering_is_enabled then s
  else
    let s := if s.cycle = 256 then s.increment_y else s
    let s :=
      if s.cycle = 257 then
        let horizontal_bitmask := 0b000010000011111
        { s with v := (s.v &&& not16 horizontal_bitmask) ||| (s.t &&& horizontal_bitmask) }
      else s
    let s :=
      if s.scanline = 261 ∧ 280 ≤ s.cycle ∧ s.cycle ≤ 304 then
        let vertical_bitmask := 0b111101111100000
        { s with v := (s.v &&& not16 vertical_bitmask) ||| (s.t &&& vertical_bitmask) }
      else s
    if ((0 < s.cycle ∧ s.cycle ≤ 256) ∨ 328 ≤ s.cycle) ∧ s.cycle % 8 = 0 then
      s.increment_coarse_x
    else s

/-- Source `PPU::tick_idle_cycle`: the PPU does nothing, one cycle. -/
def PPU.tick_idle_cycle (s : PPU) : PPU × Nat := (s, 1)

/-- Source `PPU::tick_render_cycle`: reload on cycles ≡ 1 (mod 8), fetch tile data,
render and emit a pixel (except on the dummy scanline 261), shift registers. -/
def PPU.tick_render_cycle (s : PPU) : Option (PPU × Nat) :=
  let s := if s.cycle % 8 = 1 then s.reload_shift_registers else s
  let s := s.fetch_tile_data
  match (if s.scanline ≠ 261 then (s.render_pixel).map some else some none : Option (Option Nat)) with
  | none => none
  | some c =>
    let s := match c with
      | some pixel => { s with output := s.output ++ [pixel] }
      | none => s
    some (s.shift_registers, 1)

/-- Source `PPU::tick_sprite_fetch_cycle` (sprites unimplemented, one cycle). -/
def PPU.tick_sprite_fetch_cycle (s : PPU) : PPU × Nat := (s, 1)

/-- Source `PPU::tick_prefetch_tiles_cycle`. -/
def PPU.tick_prefetch_tiles_cycle (s : PPU) : PPU × Nat := (s.fetch_tile_data, 1)

/-- Source `PPU::tick_unknown_fetch`: dummy nametable read. -/
def PPU.tick_unknown_fetch (s : PPU) : PPU × Nat :=
  ({ s with tmp_pattern_coords := s.memory s.tile_address }, 1)

/-- Source `PPU::tick_render_scanline`: dispatch on the cycle ranges
(`0`, `1...256`, `257...320`, `321...336`, `337...340`, else panic), then
scrolling, then the dot-1 vblank-flag clear on the pre-render line. -/
def PPU.tick_render_scanline (s : PPU) : Option (PPU × Nat) :=
  let step : Option (PPU × Nat) :=
    if s.cycle = 0 then some s.tick_idle_cycle
    else if s.cycle ≤ 256 then s.tick_render_cycle
    else if s.cycle ≤ 320 then some s.tick_sprite_fetch_cycle
    else if s.cycle ≤ 336 then some s.tick_prefetch_tiles_cycle
    else if s.cycle ≤ 340 then some s.tick_unknown_fetch
    else none
  match step with
  | none => none
  | some (s, cycles) =>
    let s := s.handle_scrolling
    let s :=
      if s.scanline = 261 ∧ s.cycle = 1 then
        { s with ppustatus := s.ppustatus &&& 0b01111111 }
      else s
    some (s, cycles)

/-- Source `PPU::tick_idle_scanline`: idle for 341 cycles. -/
def PPU.tick_idle_scanline (s : PPU) : PPU × Nat := (s, 341)

/-- Source `PPU::tick_vblank_scanline`: on scanline 241, dot 1, set the VBlank flag
(PPUSTATUS bit 7); otherwise idle; one cycle either way. -/
def PPU.tick_vblank_scanline (s : PPU) : PPU × Nat :=
  if s.scanline = 241 ∧ s.cycle = 1 then
    ({ s with ppustatus := s.ppustatus ||| 0b10000000 }, 1)
  else (s, 1)

/-- Source `PPU::tick`: dispatch on the scanline (`0...239 | 261`, `240`, `241`,
else panic), add the consumed cycles, panic if the cycle count passed 341,
and wrap to the next scanline at 341.  Returns the new state and the number
of PPU cycles the tick took; `none` models a panic. -/
def PPU.tick (s : PPU) : Option (PPU × Nat) :=
  let stage : Option (PPU × Nat) :=
    if s.scanline ≤ 239 ∨ s.scanline = 261 then s.tick_render_scanline
    else if s.scanline = 240 then some s.tick_idle_scanline
    else if s.scanline = 241 then some s.tick_vblank_scanline
    else none
  match stage with
  | none => none
  | some (s, cycles) =>
    let s := { s with cycle := s.cycle + cycles }
    if s.cycle > 341 then none
    else if s.cycle = 341 then
      some ({ s with cycle := 0, scanline := (s.scanline + 1) % 262 }, cycles)
    else some (s, cycles)

/-- Iterate `PPU::tick` `n` times, accumulating the consumed PPU cycles;
`none` if any tick panics. -/
def PPU.tickN : Nat → PPU → Option (PPU × Nat)
  | 0, s => some (s, 0)
  | n + 1, s =>
    match s.tick with
    | none => none
    | some (s1, c) =>
      match PPU.tickN n s1 with
      | none => none
      | some (s2, cs) => some (s2, c + cs)

/-- Probe for VBlank tests: PPUSTATUS bit 7 and the total consumed cycles of
an iterated-tick result. -/
def vblank_probe (r : Option (PPU × Nat)) : Option (Bool × Nat) :=
  match r with
  | none => none
  | some (s, c) => some (s.ppustatus.testBit 7, c)

end Ppu

namespace Dma

/-- The pieces of machine state touched by `DMAController::tick`
(`src/emulator/mod.rs`): the controller's own fields `copies_remaining` and
`base_address`, the `$4014` cell of the I/O register RAM it polls, the CPU
bus it loads bytes from (read-only here, modelled as a function), the PPU
OAM written through `$2004`, OAMADDR, and a count of how many times the
CPU's own `tick()` was invoked (the CPU executes instructions only there). -/
structure DMAMachine where
  copies_remaining : Nat
  base_address : Nat
  io4014 : Nat
  cpuMem : Nat → Nat
  oam : Nat → Nat
  oamaddr : Nat
  cpu_instructions : Nat

/-- Modelled from the spec: a store to `$2004` (OAMDATA) is an OAM byte
write at OAMADDR, and writes increment OAMADDR (the PPU register
dispatch lives in `ppu/registers.rs`, which is not under `src/`). -/
def store_oamdata (m : DMAMachine) (byte : Nat) : DMAMachine :=
  { m with
    oam := fun a => if a = m.oamaddr then byte else m.oam a
    oamaddr := (m.oamaddr + 1) % 256 }

/-- Source `DMAController::trigger_dma`. -/
def trigger_dma (m : DMAMachine) (base_address : Nat) : DMAMachine :=
  { m with copies_remaining := 256, base_address := base_address }

/-- Source `DMAController::tick`: poll `$4014`; a non-zero byte triggers a DMA
(base = byte << 8, 256 copies, cell cleared).  While copies remain, move one
byte from the CPU bus to `$2004` and take 2 CPU cycles; otherwise delegate
to the CPU's `tick()`, whose cycle count is the `cpu_cycles` parameter. -/
def tick (cpu_cycles : Nat) (m : DMAMachine) : DMAMachine × Nat :=
  let byte := m.io4014
  let m :=
    if byte ≠ 0 then
      { m with base_address := byte <<< 8, copies_remaining := 256, io4014 := 0 }
    else m
  if m.copies_remaining > 0 then
    let b := m.cpuMem (m.base_address + 256 - m.copies_remaining)
    let m := store_oamdata m b
    ({ m with copies_remaining := m.copies_remaining - 1 }, 2)
  else
    ({ m with cpu_instructions := m.cpu_instructions + 1 }, cpu_cycles)

/-- Iterate `DMAController::tick` `n` times, summing the returned cycles. -/
def run (cpu_cycles : Nat) : Nat → DMAMachine → DMAMachine × Nat
  | 0, m => (m, 0)
  | n + 1, m =>
    let r := tick cpu_cycles m
    let rest := run cpu_cycles n r.1
    (rest.1, r.2 + rest.2)

end Dma

namespace Clk

/-- Source `TickNode` from `src/emulator/clock.rs`. -/
structure TickNode where
  ticker_ix : Nat
  next_tick_cycle : Nat
deriving DecidableEq

/-- Source `Clock` state: the fields that participate in scheduling.  The
wall-clock drift fields (`started_instant`, sleeping, logging) are host
time, outside the cycle model. -/
structure Clock where
  num_ticks : Nat
  elapsed_cycles : Nat
  cycles_this_second : Nat
  nodes : List TickNode
deriving DecidableEq

/-- Source `Clock::new`. -/
def Clock.new : Clock :=
  { num_ticks := 0, elapsed_cycles := 0, cycles_this_second := 0, nodes := [] }

/-- Source `Clock::manage`: push a ticker; its node starts at the current
`elapsed_cycles` with index = position in the ticker list. -/
def Clock.manage (c : Clock) : Clock :=
  { c with
    nodes := c.nodes ++ [{ ticker_ix := c.nodes.length, next_tick_cycle := c.elapsed_cycles }] }

/-- Source `Clock::manage` iterated `n` times from an initial clock. -/
def Clock.manageN : Nat → Clock → Clock
  | 0, c => c
  | n + 1, c => Clock.manageN n c.manage

/-- The `BinaryHeap` of `TickNode`s with the flipped `Ord` is a min-heap on
`next_tick_cycle`; `peek_mut` hands out an element with the least key.  This
models the heap as a list and selection of a least-key element (with the
rest of the heap). -/
def selectMin : List TickNode → Option (TickNode × List TickNode)
  | [] => none
  | n :: rest =>
    match selectMin rest with
    | none => some (n, [])
    | some (m, rest') =>
      if n.next_tick_cycle ≤ m.next_tick_cycle then some (n, rest)
      else some (m, n :: rest')

/-- Source `Clock::tick`: peek the minimal node, advance `elapsed_cycles` to its
`next_tick_cycle`, run the ticker (its returned master-cycle count is the
`cycles` parameter), and move the node's key forward by that count. -/
def Clock.tick (cycles : Nat) (c : Clock) : Clock :=
  let c1 :=
    match selectMin c.nodes with
    | none => c
    | some (node, rest) =>
      { c with
        cycles_this_second := c.cycles_this_second + (node.next_tick_cycle - c.elapsed_cycles)
        elapsed_cycles := node.next_tick_cycle
        nodes := { node with next_tick_cycle := node.next_tick_cycle + cycles } :: rest }
  { c1 with num_ticks := c1.num_ticks + 1 }

/-- The trajectory of clock states under a sequence of ticks, where the
`k`-th list entry is the master-cycle count returned by the `k`-th invoked
ticker. -/
def Clock.trace : Clock → List Nat → List Clock
  | _, [] => []
  | c, k :: ks =>
    let c1 := Clock.tick k c
    c1 :: Clock.trace c1 ks

/-- The scheduler invariant: every managed ticker's `next_tick_cycle` is at
least `elapsed_cycles`. -/
def Inv (c : Clock) : Prop :=
  ∀ n ∈ c.nodes, c.elapsed_cycles ≤ n.next_tick_cycle

end Clk

namespace Cpu

/-- Processor flags `NV_BDIZC` (`simul/cpu/flags.rs` is not under `src/`;
modelled from the spec: flags {N,V,_,B,D,I,Z,C}). -/
structure Flags where
  n : Bool
  v : Bool
  b : Bool
  d : Bool
  i : Bool
  z : Bool
  c : Bool
deriving DecidableEq

/-- Source `flags::new`: all clear. -/
def Flags.new : Flags :=
  { n := false, v := false, b := false, d := false, i := false, z := false, c := false }

/-- CPU state from `src/simul/cpu/mod.rs`: RAM (modelled as a function),
A/X/Y/SP, PC and the flags. -/
structure CPU where
  memory : Nat → Nat
  a : Nat
  x : Nat
  y : Nat
  sp : Nat
  pc : Nat
  p : Flags

/-- Source `cpu::new`. -/
def CPU.new (memory : Nat → Nat) : CPU :=
  { memory := memory, a := 0, x := 0, y := 0, sp := 0, pc := 0, p := Flags.new }

/-- The operations named by `CPU::decode_instruction`
(`instructions::lda`, `instructions::sta`). -/
inductive Operation
  | lda
  | sta
deriving DecidableEq

/-- The addressing modes named by `CPU::decode_instruction`
(`addressing::immediate` and friends). -/
inductive AddressingMode
  | immediate
  | zero_page
  | zero_page_indexed
  | absolute
  | absolute_indexed_x
  | absolute_indexed_y
  | indexed_indirect
  | indirect_indexed
deriving DecidableEq

/-- Source `CPU::decode_instruction`: the implemented opcode table (8 × LDA,
3 × STA); every other opcode hits `_ => panic!("Unknown opcode")`,
modelled as `none`. -/
def decode_instruction (opcode : Nat) : Option (Operation × AddressingMode) :=
  match opcode with
  | 0xA9 => some (.lda, .immediate)
  | 0xA5 => some (.lda, .zero_page)
  | 0xB5 => some (.lda, .zero_page_indexed)
  | 0xAD => some (.lda, .absolute)
  | 0xBD => some (.lda, .absolute_indexed_x)
  | 0xB9 => some (.lda, .absolute_indexed_y)
  | 0xA1 => some (.lda, .indexed_indirect)
  | 0xB1 => some (.lda, .indirect_indexed)
  | 0x85 => some (.sta, .zero_page)
  | 0x95 => some (.sta, .zero_page_indexed)
  | 0x8D => some (.sta, .absolute)
  | _ => none

/-- The list of implemented opcode bytes, for stating which opcodes decode. -/
def implemented_opcodes : List Nat :=
  [0xA9, 0xA5, 0xB5, 0xAD, 0xBD, 0xB9, 0xA1, 0xB1, 0x85, 0x95, 0x8D]

/-- Modelled from the spec: each addressing mode yields an effective
address, the number of operand bytes consumed, the operation's base cycle
count for a load, and whether a page boundary was crossed
(`simul/cpu/addressing.rs` is not under `src/`; cycle counts follow the
spec's timing contract and end-to-end scenarios). -/
def AddressingMode.resolve (mode : AddressingMode) (c : CPU) : Nat × Nat × Nat × Bool :=
  match mode with
  | .immediate => (c.pc, 1, 1, false)
  | .zero_page => (c.memory c.pc, 1, 2, false)
  | .zero_page_indexed => ((c.memory c.pc + c.x) % 256, 1, 3, false)
  | .absolute => (c.memory c.pc + 256 * c.memory ((c.pc + 1) % 65536), 2, 3, false)
  | .absolute_indexed_x =>
    let base := c.memory c.pc + 256 * c.memory ((c.pc + 1) % 65536)
    ((base + c.x) % 65536, 2, 3, 256 ≤ base % 256 + c.x)
  | .absolute_indexed_y =>
    let base := c.memory c.pc + 256 * c.memory ((c.pc + 1) % 65536)
    ((base + c.y) % 65536, 2, 3, 256 ≤ base % 256 + c.y)
  | .indexed_indirect =>
    let ptr := (c.memory c.pc + c.x) % 256
    (c.memory ptr + 256 * c.memory ((ptr + 1) % 256), 1, 5, false)
  | .indirect_indexed =>
    let ptr := c.memory c.pc
    let base := c.memory ptr + 256 * c.memory ((ptr + 1) % 256)
    ((base + c.y) % 65536, 1, 4, 256 ≤ base % 256 + c.y)

/-- Modelled from the spec: `instructions::lda` — load the addressed byte
into A, set Z from result zero and N from bit 7, pay the page-cross penalty
(`simul/cpu/instructions.rs` is not under `src/`). -/
def lda (c : CPU) (mode : AddressingMode) : CPU × Nat :=
  let r := mode.resolve c
  let value := c.memory r.1
  let c :=
    { c with
      a := value
      pc := (c.pc + r.2.1) % 65536
      p := { c.p with z := value = 0, n := 128 ≤ value } }
  (c, r.2.2.1 + if r.2.2.2 then 1 else 0)

/-- Modelled from the spec: `instructions::sta` — store A at the addressed
location, no flags, no page-cross penalty
(`simul/cpu/instructions.rs` is not under `src/`). -/
def sta (c : CPU) (mode : AddressingMode) : CPU × Nat :=
  let r := mode.resolve c
  let c :=
    { c with
      memory := fun addr => if addr = r.1 then c.a else c.memory addr
      pc := (c.pc + r.2.1) % 65536 }
  (c, r.2.2.1)

/-- Source `CPU::execute_next_instruction`: fetch the opcode at PC, advance PC,
decode (panic — `none` — on an unknown opcode), run the operation, and
return its cycles plus one for the opcode fetch. -/
def execute_next_instruction (c : CPU) : Option (CPU × Nat) :=
  let opcode := c.memory c.pc
  let c := { c with pc := (c.pc + 1) % 65536 }
  match decode_instruction opcode with
  | none => none
  | some (op, mode) =>
    let r : CPU × Nat :=
      match op with
      | .lda => lda c mode
      | .sta => sta c mode
    some (r.1, r.2 + 1)

end Cpu

namespace Apu

/-- Source `SequenceMode` from `src/emulator/apu/mod.rs`. -/
inductive SequenceMode
  | FourStep
  | FiveStep
deriving DecidableEq

/-- Source `LENGTH_COUNTER_LOOKUP` (32 entries). -/
def LENGTH_COUNTER_LOOKUP : List Nat :=
  [10, 254, 20, 2, 40, 4, 80, 6, 160, 8, 60, 10, 14, 12, 26, 14,
   12, 16, 24, 18, 48, 20, 96, 22, 192, 24, 72, 26, 16, 28, 32, 30]

/-- Modelled from the spec: the envelope unit — a 4-bit constant volume or
a decaying counter loopable via the halt/loop flag (`apu/synth.rs` is not
under `src/`). -/
structure Envelope where
  loop_flag : Bool
  constant_volume : Bool
  volume : Nat
  decay : Nat
  divider : Nat
  start : Bool
deriving DecidableEq

/-- Modelled from the spec: `Envelope::set_volume`. -/
def Envelope.set_volume (e : Envelope) (v : Nat) : Envelope := { e with volume := v }

/-- Modelled from the spec: `Envelope::restart` flags the envelope to reload
its decay counter on the next quarter-frame clock. -/
def Envelope.restart (e : Envelope) : Envelope := { e with start := true }

/-- Modelled from the spec: `Envelope::clock` — the quarter-frame decay
step: reload to 15 on start, otherwise the divider counts down from the
volume period and the decay level decrements, wrapping to 15 when looping. -/
def Envelope.clock (e : Envelope) : Envelope :=
  if e.start then { e with start := false, decay := 15, divider := e.volume }
  else if e.divider = 0 then
    { e with
      divider := e.volume
      decay := if 0 < e.decay then e.decay - 1 else if e.loop_flag then 15 else 0 }
  else { e with divider := e.divider - 1 }

/-- The pulse channel state (fields as used by `apu/mod.rs`; the timer and
duty phase live in `apu/synth.rs`, not under `src/`, and are modelled from
the spec). -/
structure Pulse where
  sequence : Nat
  period : Nat
  length : Nat
  halt_length : Bool
  enabled : Bool
  envelope : Envelope
  timer : Nat
  phase : Nat
deriving DecidableEq

/-- Modelled from the spec: `Pulse::restart` resets the duty phase. -/
def Pulse.restart (p : Pulse) : Pulse := { p with phase := 0 }

/-- Modelled from the spec: the half-frame length-counter clock — the
length counter decrements towards zero unless the halt flag suppresses the
decrement. -/
def Pulse.clock_length (p : Pulse) : Pulse :=
  if 0 < p.length ∧ ¬p.halt_length then { p with length := p.length - 1 } else p

/-- Modelled from the spec: `Pulse::clock` — the 11-bit timer reloads from
the period and steps the 8-position duty phase. -/
def Pulse.clock (p : Pulse) : Pulse :=
  if p.timer = 0 then { p with timer := p.period, phase := (p.phase + 1) % 8 }
  else { p with timer := p.timer - 1 }

/-- The triangle channel state (fields as used by `apu/mod.rs`). -/
structure Triangle where
  period : Nat
  length : Nat
  linear : Nat
  linear_reload_value : Nat
  linear_reload_flag : Bool
  halt_length : Bool
  control_flag : Bool
  enabled : Bool
  timer : Nat
  seq_pos : Nat
deriving DecidableEq

/-- Modelled from the spec: triangle half-frame length clock. -/
def Triangle.clock_length (t : Triangle) : Triangle :=
  if 0 < t.length ∧ ¬t.halt_length then { t with length := t.length - 1 } else t

/-- Modelled from the spec: `Triangle::clock_linear` — the linear counter
reloads on the quarter-frame if its reload flag is set, else decrements
towards zero; the control flag latches the reload flag. -/
def Triangle.clock_linear (t : Triangle) : Triangle :=
  let t :=
    if t.linear_reload_flag then { t with linear := t.linear_reload_value }
    else if 0 < t.linear then { t with linear := t.linear - 1 }
    else t
  if ¬t.control_flag then { t with linear_reload_flag := false } else t

/-- Modelled from the spec: `Triangle::clock` — the 11-bit timer steps a
32-entry sequence. -/
def Triangle.clock (t : Triangle) : Triangle :=
  if t.timer = 0 then { t with timer := t.period, seq_pos := (t.seq_pos + 1) % 32 }
  else { t with timer := t.timer - 1 }

/-- The noise channel state (fields as used by `apu/mod.rs`). -/
structure Noise where
  lfsr : Nat
  mode : Bool
  period : Nat
  length : Nat
  halt_length : Bool
  enabled : Bool
  envelope : Envelope
  timer : Nat
deriving DecidableEq

/-- Modelled from the spec: noise half-frame length clock. -/
def Noise.clock_length (n : Noise) : Noise :=
  if 0 < n.length ∧ ¬n.halt_length then { n with length := n.length - 1 } else n

/-- Modelled from the spec: `Noise::clock` — 15-bit LFSR with feedback from
bit 0 XOR (bit 1 or bit 6 depending on the mode bit). -/
def Noise.clock (n : Noise) : Noise :=
  if n.timer = 0 then
    let feedback := (n.lfsr &&& 1) ^^^ ((n.lfsr >>> (if n.mode then 6 else 1)) &&& 1)
    { n with timer := n.period, lfsr := (n.lfsr >>> 1) ||| (feedback <<< 14) }
  else { n with timer := n.timer - 1 }

/-- The DMC channel state (fields as used by `apu/mod.rs`).  The PRG sample
fetches and the 1-bit delta shifter live in `apu/synth.rs` (not under
`src/`) and are not needed by any claim; only the timer step is modelled. -/
structure DMC where
  irq_enabled : Bool
  loop_flag : Bool
  period : Nat
  volume : Nat
  sample_addr : Nat
  sample_len : Nat
  irq_flag : Bool
  timer : Nat
deriving DecidableEq

/-- Modelled from the spec: `DMC::clock` timer step. -/
def DMC.clock (d : DMC) : DMC :=
  if d.timer = 0 then { d with timer := d.period } else { d with timer := d.timer - 1 }

/-- The APU state from `src/emulator/apu/mod.rs`.  The audio sink takes f32
samples (floating point); only the number of emitted samples is tracked. -/
structure APU where
  sequence_mode : SequenceMode
  cycle_counter : Nat
  irq_flag : Bool
  pulse_1 : Pulse
  pulse_2 : Pulse
  triangle : Triangle
  noise : Noise
  dmc : DMC
  samples_emitted : Nat
deriving DecidableEq

/-- Source `APU::clock_linear_and_envelope` (the quarter-frame units). -/
def APU.clock_linear_and_envelope (a : APU) : APU :=
  { a with
    pulse_1 := { a.pulse_1 with envelope := a.pulse_1.envelope.clock }
    pulse_2 := { a.pulse_2 with envelope := a.pulse_2.envelope.clock }
    triangle := a.triangle.clock_linear
    noise := { a.noise with envelope := a.noise.envelope.clock } }

/-- Source `APU::clock_length_counters` (the half-frame units). -/
def APU.clock_length_counters (a : APU) : APU :=
  { a with
    pulse_1 := a.pulse_1.clock_length
    pulse_2 := a.pulse_2.clock_length
    triangle := a.triangle.clock_length
    noise := a.noise.clock_length }

/-- Source `impl Ticker for APU` — `tick`: advance the frame-sequencer cycle
counter, fire the quarter/half-frame clocks at the mode's fixed cycle
counts (wrapping, and raising the frame IRQ, at 14915 in 4-step mode;
wrapping silently at 18641 in 5-step mode), then step every channel and
emit one mixed sample.  Returns 1 APU cycle. -/
def APU.tick (a : APU) : APU × Nat :=
  let a := { a with cycle_counter := a.cycle_counter + 1 }
  let a :=
    match a.sequence_mode with
    | .FourStep =>
      if a.cycle_counter = 3729 then a.clock_linear_and_envelope
      else if a.cycle_counter = 7457 then a.clock_linear_and_envelope.clock_length_counters
      else if a.cycle_counter = 11186 then a.clock_linear_and_envelope
      else if a.cycle_counter = 14915 then
        { a.clock_linear_and_envelope.clock_length_counters with
          cycle_counter := 0, irq_flag := true }
      else a
    | .FiveStep =>
      if a.cycle_counter = 3729 then a.clock_linear_and_envelope
      else if a.cycle_counter = 7457 then a.clock_linear_and_envelope.clock_length_counters
      else if a.cycle_counter = 11186 then a.clock_linear_and_envelope
      else if a.cycle_counter = 18641 then
        { a.clock_linear_and_envelope.clock_length_counters with cycle_counter := 0 }
      else a
  let a :=
    { a with
      pulse_1 := a.pulse_1.clock
      pulse_2 := a.pulse_2.clock
      triangle := a.triangle.clock
      noise := a.noise.clock
      dmc := a.dmc.clock }
  ({ a with samples_emitted := a.samples_emitted + 1 }, 1)

/-- Source `impl Writer for APU` — `write`: the register dispatch on
`$4000..$4017`.  `noise_periods` and `dmc_periods` stand for
`Noise::PERIOD_LOOKUP` and `DMC::PERIOD_LOOKUP`, whose concrete tables live
in `apu/synth.rs` (not under `src/`).  The source has two identical
`0x4001` arms (both empty TODOs — the second, intended for `$4006`, is
unreachable); a single empty `0x4001` arm has the same behaviour. -/
def APU.write (noise_periods dmc_periods : Nat → Nat) (address byte : Nat) (a : APU) : APU :=
  match address with
  | 0x4000 =>
    { a with
      pulse_1 :=
        { a.pulse_1 with
          sequence := byte >>> 6
          halt_length := (byte &&& 0x20) ≠ 0
          envelope :=
            ((({ a.pulse_1.envelope with
                  loop_flag := (byte &&& 0x20) ≠ 0
                  constant_volume := (byte &&& 0x10) ≠ 0 }).set_volume
                (byte &&& 0x0F))).restart } }
  | 0x4001 => a
  | 0x4002 =>
    { a with pulse_1 := { a.pulse_1 with period := (a.pulse_1.period &&& 0xFF00) ||| byte } }
  | 0x4003 =>
    { a with
      pulse_1 :=
        ({ a.pulse_1 with
            length := LENGTH_COUNTER_LOOKUP.getD (byte >>> 3) 0
            period := (a.pulse_1.period &&& 0x00FF) ||| ((byte &&& 0x7) <<< 8) }).restart }
  | 0x4004 =>
    { a with
      pulse_2 :=
        { a.pulse_2 with
          sequence := byte >>> 6
          halt_length := (byte &&& 0x20) ≠ 0
          envelope :=
            ((({ a.pulse_2.envelope with
                  loop_flag := (byte &&& 0x20) ≠ 0
                  constant_volume := (byte &&& 0x10) ≠ 0 }).set_volume
                (byte &&& 0x0F))).restart } }
  | 0x4006 =>
    { a with pulse_2 := { a.pulse_2 with period := (a.pulse_2.period &&& 0xFF00) ||| byte } }
  | 0x4007 =>
    { a with
      pulse_2 :=
        ({ a.pulse_2 with
            length := LENGTH_COUNTER_LOOKUP.getD (byte >>> 3) 0
            period := (a.pulse_2.period &&& 0x00FF) ||| ((byte &&& 0x7) <<< 8) }).restart }
  | 0x4008 =>
    { a with
      triangle :=
        { a.triangle with
          linear_reload_value := byte &&& 0x7F
          halt_length := (byte &&& 0x80) ≠ 0
          control_flag := (byte &&& 0x80) ≠ 0 } }
  | 0x400A =>
    { a with triangle := { a.triangle with period := (a.triangle.period &&& 0xFF00) ||| byte } }
  | 0x400B =>
    { a with
      triangle :=
        { a.triangle with
          length := LENGTH_COUNTER_LOOKUP.getD (byte >>> 3) 0
          period := (a.triangle.period &&& 0x00FF) ||| ((byte &&& 0x7) <<< 8)
          linear_reload_flag := true } }
  | 0x400C =>
    { a with
      noise :=
        { a.noise with
          halt_length := (byte &&& 0x20) ≠ 0
          envelope :=
            ((({ a.noise.envelope with
                  loop_flag := (byte &&& 0x20) ≠ 0
                  constant_volume := (byte &&& 0x10) ≠ 0 }).set_volume
                (byte &&& 0x0F))).restart } }
  | 0x400E =>
    { a with
      noise :=
        { a.noise with
          mode := (byte &&& 0x80) ≠ 0
          period := noise_periods (byte &&& 0x0F) } }
  | 0x400F =>
    { a with
      noise :=
        { a.noise with
          length := LENGTH_COUNTER_LOOKUP.getD (byte >>> 3) 0
          envelope := a.noise.envelope.restart } }
  | 0x4010 =>
    { a with
      dmc :=
        { a.dmc with
          irq_enabled := (byte &&& 0x80) ≠ 0
          loop_flag := (byte &&& 0x40) ≠ 0
          period := dmc_periods (byte &&& 0x0F) } }
  | 0x4011 => { a with dmc := { a.dmc with volume := byte &&& 0x7F } }
  | 0x4012 => { a with dmc := { a.dmc with sample_addr := 0xC000 ||| (byte <<< 6) } }
  | 0x4013 => { a with dmc := { a.dmc with sample_len := (byte <<< 4) + 1 } }
  | 0x4015 =>
    let a :=
      if (byte >>> 3) &&& 0x1 ≠ 0 then { a with noise := { a.noise with enabled := true } }
      else { a with noise := { a.noise with enabled := false, length := 0 } }
    let a :=
      if (byte >>> 2) &&& 0x1 ≠ 0 then { a with triangle := { a.triangle with enabled := true } }
      else { a with triangle := { a.triangle with enabled := false, length := 0 } }
    let a :=
      if (byte >>> 1) &&& 0x1 ≠ 0 then { a with pulse_2 := { a.pulse_2 with enabled := true } }
      else { a with pulse_2 := { a.pulse_2 with enabled := false, length := 0 } }
    if byte &&& 0x1 ≠ 0 then { a with pulse_1 := { a.pulse_1 with enabled := true } }
    else { a with pulse_1 := { a.pulse_1 with enabled := false, length := 0 } }
  | 0x4017 =>
    { a with
      sequence_mode := if byte &&& 0x80 = 0 then SequenceMode.FourStep else SequenceMode.FiveStep }
  | _ => a

end Apu

namespace Ctrl

/-- Source `Button` from `nes/src/emulator/controller.rs`. -/
inductive Button
  | Start
  | Select
  | A
  | B
  | Up
  | Down
  | Left
  | Right
deriving DecidableEq

/-- Source `Controller::STROBE_ORDER`. -/
def STROBE_ORDER : List Button :=
  [Button.A, Button.B, Button.Select, Button.Start,
   Button.Up, Button.Down, Button.Left, Button.Right]

/-- The controller state.  The `keymap` (host key → button) and `keystate`
hash maps are modelled as a partial map and a total map with the `false`
default that `unwrap_or(&false)` gives. -/
structure Controller where
  keymap : Nat → Option Button
  keystate : Button → Bool
  strobe_ix : Nat
  register : Nat

/-- Source `Controller::new`. -/
def Controller.new (keymap : Nat → Option Button) : Controller :=
  { keymap := keymap, keystate := fun _ => false, strobe_ix := 0, register := 0 }

/-- Key events from `io/event.rs`. -/
inductive Event
  | KeyDown (key : Nat)
  | KeyUp (key : Nat)

/-- Source `impl EventHandler for Controller` — `handle_event`. -/
def Controller.handle_event (c : Controller) (event : Event) : Controller :=
  match event with
  | .KeyDown key =>
    match c.keymap key with
    | some button => { c with keystate := fun b => if b = button then true else c.keystate b }
    | none => c
  | .KeyUp key =>
    match c.keymap key with
    | some button => { c with keystate := fun b => if b = button then false else c.keystate b }
    | none => c

/-- Source `impl Reader for Controller` — `read`: while the strobe bit is set the
shift index is reset; the indexed `STROBE_ORDER` entry's pressed state is
returned as the byte, and the index advances modulo 8.  Indexing out of
bounds would panic, modelled as `none`. -/
def Controller.read (c : Controller) : Option (Nat × Controller) :=
  let c := if c.register &&& 1 ≠ 0 then { c with strobe_ix := 0 } else c
  match STROBE_ORDER.get? c.strobe_ix with
  | none => none
  | some button =>
    let byte := if c.keystate button then 1 else 0
    some (byte, { c with strobe_ix := (c.strobe_ix + 1) % 8 })

/-- Source `impl Writer for Controller` — `write`: keep only bit 0 (the strobe). -/
def Controller.write (byte : Nat) (c : Controller) : Controller :=
  { c with register := byte &&& 1 }

/-- Read `n` times in sequence, collecting the returned bytes. -/
def Controller.readN : Nat → Controller → Option (List Nat × Controller)
  | 0, c => some ([], c)
  | n + 1, c =>
    match c.read with
    | none => none
    | some (byte, c1) =>
      match Controller.readN n c1 with
      | none => none
      | some (bytes, c2) => some (byte :: bytes, c2)

/-- The external operations a controller receives. -/
inductive Op
  | read
  | write (byte : Nat)
  | event (e : Event)

/-- One external operation (a failing `read` is a panic, `none`). -/
def Controller.step (c : Controller) : Op → Option Controller
  | .read => (c.read).map Prod.snd
  | .write byte => some (c.write byte)
  | .event e => some (c.handle_event e)

/-- Run a sequence of external operations. -/
def Controller.runOps : Controller → List Op → Option Controller
  | c, [] => some c
  | c, op :: ops =>
    match c.step op with
    | none => none
    | some c1 => Controller.runOps c1 ops

end Ctrl

section Fixtures

/-- An all-zero memory/bus, used by the concrete test states. -/
def zeroMem : Nat → Nat := fun _ => 0

/-- A PPU sitting on VBlank scanline 242 (the state `tick` reaches right
after the scanline-241 pass completes). -/
def ppu_scan242 : Ppu.PPU := { Ppu.PPU.new zeroMem with scanline := 242 }

/-- A PPU whose two background pattern shift registers both carry a 1 in
bit 0 (`fine_x = 0`), so both pattern bitplanes are set for the current
pixel. -/
def ppu_both_planes : Ppu.PPU :=
  { Ppu.PPU.new zeroMem with tile_register_low := 1, tile_register_high := 1 }

/-- A PPU whose VRAM address `v` selects nametable 1 (`v = 0x0400`). -/
def ppu_nt1 : Ppu.PPU := { Ppu.PPU.new zeroMem with v := 0x0400 }

/-- A PPU at the start of the post-render scanline (scanline 240, dot 0). -/
def ppu_post_render : Ppu.PPU := { Ppu.PPU.new zeroMem with scanline := 240 }

/-- A DMA machine that has just seen `$4014 ← 0x02`, with a recognisable
CPU-bus pattern. -/
def dma_fix : Dma.DMAMachine :=
  { copies_remaining := 0
    base_address := 0
    io4014 := 2
    cpuMem := fun a => a % 256
    oam := fun _ => 0
    oamaddr := 0
    cpu_instructions := 0 }

/-- A second DMA machine (`$4014 ← 0x03`, different bus pattern). -/
def dma_fix2 : Dma.DMAMachine :=
  { copies_remaining := 0
    base_address := 0
    io4014 := 3
    cpuMem := fun a => (a * 3) % 256
    oam := fun _ => 0
    oamaddr := 0
    cpu_instructions := 0 }

/-- A CPU about to fetch opcode 0x00 (BRK — documented 6502, but outside
this CPU's implemented set). -/
def cpu_brk : Cpu.CPU := Cpu.CPU.new zeroMem

/-- A CPU about to fetch opcode 0x02 (an undocumented opcode, also outside
the implemented set). -/
def cpu_x02 : Cpu.CPU := Cpu.CPU.new (fun _ => 2)

/-- A quiescent envelope unit. -/
def env0 : Apu.Envelope :=
  { loop_flag := false, constant_volume := false, volume := 0, decay := 0,
    divider := 0, start := false }

/-- A pulse channel with a running length counter (254, halt clear), so a
half-frame clock would visibly decrement it. -/
def pulse_len254 : Apu.Pulse :=
  { sequence := 0, period := 0, length := 254, halt_length := false,
    enabled := true, envelope := env0, timer := 0, phase := 0 }

/-- A quiet triangle channel. -/
def tri0 : Apu.Triangle :=
  { period := 0, length := 0, linear := 0, linear_reload_value := 0,
    linear_reload_flag := false, halt_length := false, control_flag := false,
    enabled := false, timer := 0, seq_pos := 0 }

/-- A quiet noise channel. -/
def noise0 : Apu.Noise :=
  { lfsr := 1, mode := false, period := 0, length := 0, halt_length := false,
    enabled := false, envelope := env0, timer := 0 }

/-- A quiet DMC channel. -/
def dmc0 : Apu.DMC :=
  { irq_enabled := false, loop_flag := false, period := 0, volume := 0,
    sample_addr := 0, sample_len := 0, irq_flag := false, timer := 0 }

/-- An APU mid-frame: the sequencer counter stands at 5 and pulse 1 has a
running length counter. -/
def apu_mid : Apu.APU :=
  { sequence_mode := Apu.SequenceMode.FourStep
    cycle_counter := 5
    irq_flag := false
    pulse_1 := pulse_len254
    pulse_2 := pulse_len254
    triangle := tri0
    noise := noise0
    dmc := dmc0
    samples_emitted := 0 }

/-- An empty keymap. -/
def keymap0 : Nat → Option Ctrl.Button := fun _ => none

/-- Button state with only A pressed. -/
def press_a : Ctrl.Button → Bool :=
  fun b => match b with
    | Ctrl.Button.A => true
    | _ => false

/-- A controller whose last read sequence is complete (shift index 0) and
whose A button is pressed. -/
def ctrl_ix0 : Ctrl.Controller :=
  { Ctrl.Controller.new keymap0 with keystate := press_a }

/-- A controller caught mid-sequence: shift index 1, A pressed. -/
def ctrl_ix1 : Ctrl.Controller :=
  { Ctrl.Controller.new keymap0 with keystate := press_a, strobe_ix := 1 }

end Fixtures

/-!
## Theorems

One theorem per claim of the specification review, with counterexamples and
witnesses where the claim has been corrected or shown to expose a code bug.
-/

/-- C1.  The spec declares scanlines 242..260 idle and requires `tick()` to
be total, but `PPU::tick` reaches the catch-all `panic!` arm on every one of
them: on the reachable state with `scanline = 242` (entered as soon as the
scanline-241 pass completes) `tick` panics instead of idling. -/
theorem ppu_tick_panics_on_scanline_242 : Ppu.PPU.tick ppu_scan242 = none := rfl

/-- C2.  The background colour index in `PPU::render_pixel` is computed
with `&` where the spec intends `|`: with both pattern bitplanes set at
`fine_x` the code yields index 0 (it always yields 0), while the claimed
`(high << 1) | low` composition yields 3. -/
theorem render_pixel_uses_and_not_or :
    Ppu.PPU.colour_index ppu_both_planes = 0 ∧
    Ppu.spec_colour_index ppu_both_planes = 3 ∧
    Ppu.PPU.render_pixel ppu_both_planes = some 0x00 :=
  ⟨rfl, rfl, rfl⟩

/-- C3.  `PPU::attribute_address` ORs in `nametable_select()` — the
nametable bits shifted down to bits 0..1 — instead of `v & 0x0C00` as in
the nesdev formula the claim (and the code's own comment) cite: at
`v = 0x0400` the code produces `0x23C1` where the formula gives `0x27C0`. -/
theorem attribute_address_drops_nametable_bits :
    Ppu.PPU.attribute_address ppu_nt1 = 0x23C1 ∧
    Ppu.spec_attribute_address 0x0400 = 0x27C0 ∧
    (0x23C1 : Nat) ≠ 0x27C0 :=
  ⟨rfl, rfl, by decide⟩

/-- C7 counterexample.  From scanline 240, dot 0, advancing the PPU by
exactly 341+1 cycles (two ticks: the 341-cycle idle scanline, then dot 0 of
scanline 241) leaves PPUSTATUS bit 7 still clear, contradicting the claim
that 341+1 cycles suffice. -/
theorem vblank_not_set_after_342 :
    Ppu.vblank_probe (Ppu.PPU.tickN 2 ppu_post_render) = some (false, 342) := rfl

/-- C7 (amended).  From any PPU state at scanline 240, dot 0, advancing by
341+2 cycles (three ticks) sets PPUSTATUS bit 7: the VBlank flag is set
during the tick that processes dot 1 of scanline 241, one cycle later than
the claim stated. -/
theorem vblank_set_after_343 (s : Ppu.PPU) (h1 : s.scanline = 240) (h2 : s.cycle = 0) :
    Ppu.vblank_probe (Ppu.PPU.tickN 3 s) = some (true, 343) := by
  simp [Ppu.PPU.tickN, Ppu.PPU.tick, Ppu.PPU.tick_idle_scanline,
        Ppu.PPU.tick_vblank_scanline, Ppu.vblank_probe, h1, h2,
        Nat.testBit_lor]
  exact Or.inr (by decide)

/-- C7 witness: the amended statement at the concrete post-render state. -/
theorem vblank_set_after_343_witness :
    Ppu.vblank_probe (Ppu.PPU.tickN 3 ppu_post_render) = some (true, 343) :=
  vblank_set_after_343 ppu_post_render rfl rfl

/-- C6 counterexample.  Executing opcode 0x00 (BRK — a documented 6502
instruction, outside this CPU's implemented set) does not complete as a
NOP: `decode_instruction`'s catch-all arm panics, so the execution step
fails. -/
theorem unknown_opcode_panics : Cpu.execute_next_instruction cpu_brk = none := rfl

/-- Every opcode byte outside the implemented table decodes to the panic
arm. -/
theorem decode_unimplemented (b : Nat) (h : b ∉ Cpu.implemented_opcodes) :
    Cpu.decode_instruction b = none := by
  simp only [Cpu.implemented_opcodes, List.mem_cons, List.not_mem_nil, or_false,
    not_or] at h
  unfold Cpu.decode_instruction
  split
  all_goals simp_all

/-- C6 (amended).  Executing an opcode outside the implemented instruction
set (8 × LDA, 3 × STA) is fatal, not a NOP: for every such opcode byte the
instruction-execution step panics. -/
theorem unimplemented_opcode_is_fatal (c : Cpu.CPU)
    (h : c.memory c.pc ∉ Cpu.implemented_opcodes) :
    Cpu.execute_next_instruction c = none := by
  have hd := decode_unimplemented (c.memory c.pc) h
  unfold Cpu.execute_next_instruction
  simp [hd]

/-- C6 witness: the amended statement at a CPU fetching opcode 0x02. -/
theorem unimplemented_opcode_is_fatal_witness :
    Cpu.execute_next_instruction cpu_x02 = none :=
  unimplemented_opcode_is_fatal cpu_x02 (by decide)

/-- C9 counterexample.  Writing `$4017` with bit 7 set does not reset the
frame sequencer's cycle counter (it stays at 5) and does not clock the
half-frame units (pulse 1's length counter stays at 254; a length clock
would have decremented it, its halt flag being clear). -/
theorem write_4017_does_not_reset_counter :
    (Apu.APU.write zeroMem zeroMem 0x4017 0x80 apu_mid).cycle_counter = 5 ∧
    (5 : Nat) ≠ 0 ∧
    (Apu.APU.write zeroMem zeroMem 0x4017 0x80 apu_mid).pulse_1.length = 254 ∧
    (Apu.Pulse.clock_length pulse_len254).length = 253 :=
  ⟨rfl, by decide, rfl, rfl⟩

/-- C9 (amended).  A write to `$4017` only sets the frame-sequencer mode
from bit 7 of the byte (4-step when clear, 5-step when set); it leaves the
cycle counter and every channel unit untouched — in particular it neither
resets the counter nor clocks the quarter- or half-frame units. -/
theorem write_4017_only_sets_mode (np dp : Nat → Nat) (byte : Nat) (a : Apu.APU) :
    Apu.APU.write np dp 0x4017 byte a =
      { a with
        sequence_mode :=
          if byte &&& 0x80 = 0 then Apu.SequenceMode.FourStep
          else Apu.SequenceMode.FiveStep } := rfl

/-- C8 counterexample.  A controller caught mid-sequence (`strobe_ix = 1`,
A pressed): after writing strobe 1 then strobe 0 — with no intervening read
— the next eight reads return B,Select,Start,Up,Down,Left,Right and then A
(`[0,0,0,0,0,0,0,1]`), not the claimed A-first order (`[1,0,0,0,0,0,0,0]`):
the writes never reset the shift index. -/
theorem strobe_writes_do_not_reset_index :
    (Ctrl.Controller.readN 8
        (Ctrl.Controller.write 0 (Ctrl.Controller.write 1 ctrl_ix1))).map Prod.fst =
      some [0, 0, 0, 0, 0, 0, 0, 1] ∧
    [0, 0, 0, 0, 0, 0, 0, 1] ≠ [1, 0, 0, 0, 0, 0, 0, 0] :=
  ⟨rfl, by decide⟩

/-- C8 (amended).  For every prior controller state whose shift index is 0
(a fresh controller, or one whose previous read burst completed a multiple
of eight reads) and every button setting, writing strobe 1 then strobe 0
makes the next eight reads return the pressed-state bits of
A,B,Select,Start,Up,Down,Left,Right in exactly that order.  (The writes
themselves do not reset the shift index — only a read while the strobe bit
is set does — so for other prior states the burst starts mid-sequence.) -/
theorem strobe_then_eight_reads (c : Ctrl.Controller) (h : c.strobe_ix = 0) :
    (Ctrl.Controller.readN 8
        (Ctrl.Controller.write 0 (Ctrl.Controller.write 1 c))).map Prod.fst =
      some (Ctrl.STROBE_ORDER.map (fun b => if c.keystate b then 1 else 0)) := by
  obtain ⟨km, ks, ix, reg⟩ := c
  change ix = 0 at h
  subst h
  simp [Ctrl.Controller.readN, Ctrl.Controller.read, Ctrl.Controller.write,
        Ctrl.STROBE_ORDER]

/-- C8 witness: the amended statement on the index-0 controller with A
pressed; the eight reads produce `[1,0,0,0,0,0,0,0]`. -/
theorem strobe_then_eight_reads_witness :
    (Ctrl.Controller.readN 8
        (Ctrl.Controller.write 0 (Ctrl.Controller.write 1 ctrl_ix0))).map Prod.fst =
      some [1, 0, 0, 0, 0, 0, 0, 0] := by
  have h := strobe_then_eight_reads ctrl_ix0 rfl
  rw [h]
  rfl

/-- Every index below 8 hits an entry of the 8-entry `STROBE_ORDER`. -/
theorem strobe_order_get_lt (i : Nat) (h : i < 8) :
    ∃ b, Ctrl.STROBE_ORDER.get? i = some b := by
  interval_cases i <;> exact ⟨_, rfl⟩

/-- A read from a controller whose shift index is in bounds succeeds and
leaves the index in bounds. -/
theorem read_preserves_ix (c : Ctrl.Controller) (h : c.strobe_ix < 8) :
    ∃ b c', Ctrl.Controller.read c = some (b, c') ∧ c'.strobe_ix < 8 := by
  obtain ⟨km, ks, ix, reg⟩ := c
  change ix < 8 at h
  unfold Ctrl.Controller.read
  by_cases hreg : reg &&& 1 ≠ 0
  · rw [if_pos hreg]
    refine ⟨_, _, rfl, ?_⟩
    simp
  · rw [if_neg hreg]
    interval_cases ix
    all_goals refine ⟨_, _, rfl, ?_⟩
    all_goals simp

/-- Source `handle_event` never touches the shift index. -/
theorem handle_event_strobe_ix (c : Ctrl.Controller) (e : Ctrl.Event) :
    (c.handle_event e).strobe_ix = c.strobe_ix := by
  cases e with
  | KeyDown key => cases h : c.keymap key <;> simp [Ctrl.Controller.handle_event, h]
  | KeyUp key => cases h : c.keymap key <;> simp [Ctrl.Controller.handle_event, h]

/-- Any single external operation on a controller with an in-bounds shift
index succeeds and keeps the index in bounds. -/
theorem step_preserves_ix (c : Ctrl.Controller) (op : Ctrl.Op) (h : c.strobe_ix < 8) :
    ∃ c', c.step op = some c' ∧ c'.strobe_ix < 8 := by
  cases op with
  | read =>
    obtain ⟨b, c', hr, hlt⟩ := read_preserves_ix c h
    exact ⟨c', by simp [Ctrl.Controller.step, hr], hlt⟩
  | write byte => exact ⟨_, rfl, h⟩
  | event e => exact ⟨_, rfl, by rw [handle_event_strobe_ix]; exact h⟩

/-- Any sequence of external operations from an in-bounds shift index
succeeds and keeps the index in bounds. -/
theorem runOps_preserves_ix (ops : List Ctrl.Op) :
    ∀ c : Ctrl.Controller, c.strobe_ix < 8 →
      ∃ c', Ctrl.Controller.runOps c ops = some c' ∧ c'.strobe_ix < 8 := by
  induction ops with
  | nil => intro c h; exact ⟨c, rfl, h⟩
  | cons op ops ih =>
    intro c h
    obtain ⟨c1, hs, h1⟩ := step_preserves_ix c op h
    obtain ⟨c2, hr, h2⟩ := ih c1 h1
    refine ⟨c2, ?_, h2⟩
    simp [Ctrl.Controller.runOps, hs, hr]

/-- C10.  From a freshly constructed controller, every sequence of `read`,
`write` and `handle_event` calls keeps `strobe_ix` in `0..=7`; in
particular the `STROBE_ORDER[strobe_ix]` indexing inside `read` is always
in bounds, so no read in the sequence — nor the next one — can fail. -/
theorem controller_strobe_ix_in_bounds (keymap : Nat → Option Ctrl.Button)
    (ops : List Ctrl.Op) :
    ∃ c', Ctrl.Controller.runOps (Ctrl.Controller.new keymap) ops = some c' ∧
      c'.strobe_ix < 8 ∧ (Ctrl.Controller.read c').isSome := by
  obtain ⟨c', hr, hlt⟩ :=
    runOps_preserves_ix ops (Ctrl.Controller.new keymap)
      (by show (0 : Nat) < 8; decide)
  obtain ⟨b, c'', hread, _⟩ := read_preserves_ix c' hlt
  exact ⟨c', hr, hlt, by rw [hread]; rfl⟩

/-- Source `selectMin` on a non-empty list cannot fail. -/
theorem selectMin_eq_none {l : List Clk.TickNode} (h : Clk.selectMin l = none) :
    l = [] := by
  cases l with
  | nil => rfl
  | cons n rest =>
    exfalso
    unfold Clk.selectMin at h
    cases hr : Clk.selectMin rest with
    | none => rw [hr] at h; exact Option.noConfusion h
    | some p =>
      obtain ⟨m, rest'⟩ := p
      rw [hr] at h
      dsimp only at h
      by_cases hle : n.next_tick_cycle ≤ m.next_tick_cycle
      · rw [if_pos hle] at h; exact Option.noConfusion h
      · rw [if_neg hle] at h; exact Option.noConfusion h

/-- The node handed out by `selectMin` belongs to the heap, its key is
minimal among all nodes, and the remaining nodes also come from the heap. -/
theorem selectMin_spec :
    ∀ (l : List Clk.TickNode) (m : Clk.TickNode) (r : List Clk.TickNode),
      Clk.selectMin l = some (m, r) →
      m ∈ l ∧ (∀ x ∈ l, m.next_tick_cycle ≤ x.next_tick_cycle) ∧ (∀ x ∈ r, x ∈ l) := by
  intro l
  induction l with
  | nil => intro m r h; exact Option.noConfusion h
  | cons n rest ih =>
    intro m r h
    unfold Clk.selectMin at h
    cases hr : Clk.selectMin rest with
    | none =>
      rw [hr] at h
      have hrest : rest = [] := selectMin_eq_none hr
      injection h with h1
      injection h1 with hm hr2
      subst hm
      subst hrest
      refine ⟨List.mem_cons_self _ _, ?_, ?_⟩
      · intro x hx
        rcases List.mem_cons.mp hx with rfl | hx'
        · exact Nat.le_refl _
        · exact absurd hx' (List.not_mem_nil x)
      · intro x hx
        rw [← hr2] at hx
        exact absurd hx (List.not_mem_nil x)
    | some p =>
      obtain ⟨m', rest'⟩ := p
      rw [hr] at h
      dsimp only at h
      obtain ⟨hm', hmin', hsub'⟩ := ih m' rest' hr
      by_cases hle : n.next_tick_cycle ≤ m'.next_tick_cycle
      · rw [if_pos hle] at h
        injection h with h1
        injection h1 with hm hr2
        subst hm
        subst hr2
        refine ⟨List.mem_cons_self _ _, ?_, ?_⟩
        · intro x hx
          rcases List.mem_cons.mp hx with rfl | hx'
          · exact Nat.le_refl _
          · exact Nat.le_trans hle (hmin' x hx')
        · intro x hx
          exact List.mem_cons_of_mem _ hx
      · rw [if_neg hle] at h
        injection h with h1
        injection h1 with hm hr2
        subst hm
        subst hr2
        have hle' : m'.next_tick_cycle ≤ n.next_tick_cycle :=
          Nat.le_of_lt (Nat.lt_of_not_le hle)
        refine ⟨List.mem_cons_of_mem _ hm', ?_, ?_⟩
        · intro x hx
          rcases List.mem_cons.mp hx with rfl | hx'
          · exact hle'
          · exact hmin' x hx'
        · intro x hx
          rcases List.mem_cons.mp hx with rfl | hx'
          · exact List.mem_cons_self _ _
          · exact List.mem_cons_of_mem _ (hsub' x hx')

/-- One `Clock::tick` preserves the scheduler invariant and never moves
`elapsed_cycles` backwards. -/
theorem tick_preserves_inv (k : Nat) (c : Clk.Clock) (h : Clk.Inv c) :
    Clk.Inv (Clk.Clock.tick k c) ∧
      c.elapsed_cycles ≤ (Clk.Clock.tick k c).elapsed_cycles := by
  unfold Clk.Clock.tick
  cases hs : Clk.selectMin c.nodes with
  | none => exact ⟨h, Nat.le_refl _⟩
  | some p =>
    obtain ⟨node, rest⟩ := p
    obtain ⟨hmem, hmin, hsub⟩ := selectMin_spec c.nodes node rest hs
    constructor
    · intro n hn
      rcases List.mem_cons.mp hn with rfl | hn'
      · exact Nat.le_add_right _ _
      · exact hmin n (hsub n hn')
    · exact h node hmem

/-- A fresh clock satisfies the invariant. -/
theorem inv_new : Clk.Inv Clk.Clock.new := by
  intro n hn
  exact absurd hn (List.not_mem_nil n)

/-- Source `Clock::manage` preserves the invariant: the new node starts exactly at
`elapsed_cycles`. -/
theorem inv_manage (c : Clk.Clock) (h : Clk.Inv c) : Clk.Inv c.manage := by
  intro n hn
  rcases List.mem_append.mp hn with h1 | h2
  · exact h n h1
  · rcases List.mem_singleton.mp h2 with rfl
    exact Nat.le_refl _

/-- Any number of `manage` calls preserves the invariant. -/
theorem inv_manageN : ∀ (n : Nat) (c : Clk.Clock), Clk.Inv c → Clk.Inv (Clk.Clock.manageN n c) := by
  intro n
  induction n with
  | zero => intro c h; exact h
  | succ n ih => intro c h; exact ih c.manage (inv_manage c h)

/-- Along any tick sequence from an invariant-satisfying clock, every state
satisfies the invariant and `elapsed_cycles` is non-decreasing. -/
theorem trace_spec (ks : List Nat) :
    ∀ c : Clk.Clock, Clk.Inv c →
      (∀ s ∈ Clk.Clock.trace c ks, Clk.Inv s) ∧
      List.Chain' (fun a b => a.elapsed_cycles ≤ b.elapsed_cycles)
        (c :: Clk.Clock.trace c ks) := by
  induction ks with
  | nil =>
    intro c h
    exact ⟨fun s hs => absurd hs (List.not_mem_nil s), List.chain'_singleton c⟩
  | cons k ks ih =>
    intro c h
    obtain ⟨hinv, hmono⟩ := tick_preserves_inv k c h
    obtain ⟨ih1, ih2⟩ := ih (Clk.Clock.tick k c) hinv
    constructor
    · intro s hs
      simp only [Clk.Clock.trace] at hs
      rcases List.mem_cons.mp hs with rfl | hs'
      · exact hinv
      · exact ih1 s hs'
    · simp only [Clk.Clock.trace]
      exact List.chain'_cons.mpr ⟨hmono, ih2⟩

/-- C5.  For every set of managed tickers and every sequence of
`Clock::tick` calls (the `k`-th entry of `ks` being the master-cycle count
the invoked ticker returns): every reached state keeps all
`next_tick_cycle`s at or above `elapsed_cycles`, `elapsed_cycles` is
monotonically non-decreasing across the run, and the node each tick hands
to its ticker always has the minimal `next_tick_cycle` of the heap. -/
theorem clock_scheduler_spec (n : Nat) (ks : List Nat) :
    (∀ s ∈ Clk.Clock.manageN n Clk.Clock.new ::
        Clk.Clock.trace (Clk.Clock.manageN n Clk.Clock.new) ks, Clk.Inv s) ∧
    List.Chain' (fun a b => a.elapsed_cycles ≤ b.elapsed_cycles)
      (Clk.Clock.manageN n Clk.Clock.new ::
        Clk.Clock.trace (Clk.Clock.manageN n Clk.Clock.new) ks) ∧
    (∀ (l : List Clk.TickNode) (m : Clk.TickNode) (r : List Clk.TickNode),
      Clk.selectMin l = some (m, r) →
      ∀ x ∈ l, m.next_tick_cycle ≤ x.next_tick_cycle) := by
  have hinv : Clk.Inv (Clk.Clock.manageN n Clk.Clock.new) :=
    inv_manageN n Clk.Clock.new inv_new
  obtain ⟨h1, h2⟩ := trace_spec ks (Clk.Clock.manageN n Clk.Clock.new) hinv
  refine ⟨?_, h2, fun l m r h => (selectMin_spec l m r h).2.1⟩
  intro s hs
  rcases List.mem_cons.mp hs with rfl | hs'
  · exact hinv
  · exact h1 s hs'

/-- A DMA tick taken while copies remain and `$4014` is clear performs one
byte of the transfer and returns 2 CPU cycles. -/
theorem dma_tick_copy (k : Nat) (m : Dma.DMAMachine) (h0 : m.io4014 = 0)
    (h1 : m.copies_remaining > 0) :
    Dma.tick k m =
      ({ Dma.store_oamdata m (m.cpuMem (m.base_address + 256 - m.copies_remaining)) with
          copies_remaining := m.copies_remaining - 1 }, 2) := by
  simp [Dma.tick, Dma.store_oamdata, h0, h1]

/-- The copy phase of the DMA transfer: with `n` copies remaining, `$4014`
clear, and OAMADDR at `(256 - n) % 256`, running `n` DMA ticks consumes
`2 * n` CPU cycles, never invokes the CPU's own tick, drains the counter,
and lands the `n` bus bytes at OAM `256-n ..= 255` while leaving lower OAM
untouched. -/
theorem dma_copy_run (k : Nat) :
    ∀ (n : Nat) (m : Dma.DMAMachine),
      m.io4014 = 0 → m.copies_remaining = n → n ≤ 256 → m.oamaddr = (256 - n) % 256 →
      (Dma.run k n m).2 = 2 * n ∧
      (Dma.run k n m).1.cpu_instructions = m.cpu_instructions ∧
      (Dma.run k n m).1.copies_remaining = 0 ∧
      (∀ a, a < 256 - n → (Dma.run k n m).1.oam a = m.oam a) ∧
      (∀ i, i < n →
        (Dma.run k n m).1.oam (256 - n + i) = m.cpuMem (m.base_address + (256 - n) + i)) := by
  intro n
  induction n with
  | zero =>
    intro m h0 hc hle hoam
    exact ⟨rfl, rfl, hc, fun a _ => rfl, fun i hi => absurd hi (Nat.not_lt_zero i)⟩
  | succ n ih =>
    intro m h0 hc hle hoam
    have hpos : m.copies_remaining > 0 := by omega
    have hstep := dma_tick_copy k m h0 hpos
    have haddr : m.oamaddr = 256 - (n + 1) := by omega
    have hrun : Dma.run k (n + 1) m =
        ((Dma.run k n (Dma.tick k m).1).1, (Dma.tick k m).2 + (Dma.run k n (Dma.tick k m).1).2) :=
      rfl
    have hm1 : (Dma.tick k m).1 =
        { Dma.store_oamdata m (m.cpuMem (m.base_address + 256 - m.copies_remaining)) with
          copies_remaining := m.copies_remaining - 1 } := by rw [hstep]
    have hcyc : (Dma.tick k m).2 = 2 := by rw [hstep]
    obtain ⟨ih1, ih2, ih3, ih4, ih5⟩ :=
      ih (Dma.tick k m).1
        (by rw [hm1]; exact h0)
        (by rw [hm1]; show m.copies_remaining - 1 = n; omega)
        (by omega)
        (by rw [hm1]; show (m.oamaddr + 1) % 256 = (256 - n) % 256; omega)
    refine ⟨?_, ?_, ?_, ?_, ?_⟩
    · rw [hrun]
      dsimp only
      rw [ih1, hcyc]
      ring
    · rw [hrun]
      dsimp only
      rw [ih2, hm1]
      rfl
    · rw [hrun]
      dsimp only
      exact ih3
    · intro a ha
      rw [hrun]
      dsimp only
      rw [ih4 a (by omega), hm1]
      show (if a = m.oamaddr then _ else m.oam a) = m.oam a
      rw [if_neg (by omega)]
    · intro i hi
      rw [hrun]
      dsimp only
      cases i with
      | zero =>
        rw [Nat.add_zero]
        rw [ih4 (256 - (n + 1)) (by omega), hm1]
        show (if 256 - (n + 1) = m.oamaddr then
            m.cpuMem (m.base_address + 256 - m.copies_remaining) else m.oam (256 - (n + 1))) =
          m.cpuMem (m.base_address + (256 - (n + 1)) + 0)
        rw [if_pos (by omega)]
        congr 1
        omega
      | succ j =>
        have hj : j < n := by omega
        have hidx : 256 - (n + 1) + (j + 1) = 256 - n + j := by omega
        rw [hidx, ih5 j hj, hm1]
        show m.cpuMem (m.base_address + (256 - n) + j) =
          m.cpuMem (m.base_address + (256 - (n + 1)) + (j + 1))
        congr 1
        omega

/-- A DMA tick taken while `$4014` holds a non-zero byte triggers the
transfer — base address latched from the byte, 256 copies scheduled, the
cell cleared — and immediately moves the first byte, returning 2 CPU
cycles. -/
theorem dma_tick_trigger (k : Nat) (m : Dma.DMAMachine) (h : m.io4014 ≠ 0) :
    Dma.tick k m =
      ({ Dma.store_oamdata
          { m with
            base_address := m.io4014 <<< 8, copies_remaining := 256, io4014 := 0 }
          (m.cpuMem (m.io4014 <<< 8 + 256 - 256)) with
        copies_remaining := 255 }, 2) := by
  simp [Dma.tick, Dma.store_oamdata, h]

/-- C4 (amended).  For every non-zero page byte `H` sitting in `$4014`, the
DMA transfer — the next 256 DMA ticks — copies the 256 bytes at
`H<<8 ..= H<<8 | 0xFF` into OAM (starting at OAMADDR = 0), the CPU's own
tick is never invoked (so it executes no instruction), and the whole
transfer consumes 512 CPU cycles (2 per byte), not 513/514: the code adds
no alignment cycle, and a write of 0 to `$4014` does not trigger a DMA at
all. -/
theorem dma_transfer (k H : Nat) (m : Dma.DMAMachine)
    (h1 : m.io4014 = H) (h2 : 0 < H) (h5 : m.oamaddr = 0) :
    (Dma.run k 256 m).2 = 512 ∧
    (Dma.run k 256 m).1.cpu_instructions = m.cpu_instructions ∧
    (Dma.run k 256 m).1.copies_remaining = 0 ∧
    (∀ i, i < 256 → (Dma.run k 256 m).1.oam i = m.cpuMem (H <<< 8 + i)) := by
  have hne : m.io4014 ≠ 0 := by omega
  have hstep := dma_tick_trigger k m hne
  have hm1 : (Dma.tick k m).1 =
      { Dma.store_oamdata
          { m with
            base_address := m.io4014 <<< 8, copies_remaining := 256, io4014 := 0 }
          (m.cpuMem (m.io4014 <<< 8 + 256 - 256)) with
        copies_remaining := 255 } := by rw [hstep]
  have hcyc : (Dma.tick k m).2 = 2 := by rw [hstep]
  obtain ⟨c1, c2, c3, c4, c5⟩ :=
    dma_copy_run k 255 (Dma.tick k m).1
      (by rw [hm1]; rfl)
      (by rw [hm1])
      (by omega)
      (by rw [hm1]; show (m.oamaddr + 1) % 256 = (256 - 255) % 256; omega)
  have hrun : Dma.run k 256 m =
      ((Dma.run k 255 (Dma.tick k m).1).1,
        (Dma.tick k m).2 + (Dma.run k 255 (Dma.tick k m).1).2) := rfl
  rw [hrun, hcyc]
  dsimp only
  revert c1 c2 c3 c4 c5
  generalize Dma.run k 255 (Dma.tick k m).1 = R
  revert hm1
  generalize (Dma.tick k m).1 = T
  intro hm1 c1 c2 c3 c4 c5
  have hTcm : T.cpuMem = m.cpuMem := by rw [hm1]; rfl
  have hTba : T.base_address = m.io4014 <<< 8 := by rw [hm1]; rfl
  have hTci : T.cpu_instructions = m.cpu_instructions := by rw [hm1]; rfl
  have hToam : T.oam = fun a =>
      if a = m.oamaddr then m.cpuMem (m.io4014 <<< 8 + 256 - 256) else m.oam a := by
    rw [hm1]; rfl
  refine ⟨?_, ?_, ?_, ?_⟩
  · omega
  · rw [c2, hTci]
  · exact c3
  · intro i hi
    cases i with
    | zero =>
      rw [c4 0 (by omega), hToam]
      dsimp only
      rw [if_pos (by omega), h1]
      generalize H <<< 8 = B
      rw [show B + 256 - 256 = B + 0 from by omega]
    | succ j =>
      have hj : j < 255 := by omega
      have hidx : (j + 1 : Nat) = 256 - 255 + j := by omega
      rw [hidx, c5 j hj, hTcm, hTba, h1]
      generalize H <<< 8 = B
      rw [show B + (256 - 255) + j = B + (256 - 255 + j) from by omega]

set_option maxRecDepth 4000 in
/-- C4 counterexample.  With `$4014 ← 0x02`, the full transfer (256 DMA
ticks) returns 2 CPU cycles per byte — 512 CPU cycles in total, not the
claimed 513 (nor 514: the code has no odd-cycle alignment case). -/
theorem dma_total_cycles_512 :
    (Dma.run 3 256 dma_fix).2 = 512 ∧ (512 : Nat) ≠ 513 :=
  ⟨by rfl, by decide⟩

/-- C4 witness: the amended statement on the `$4014 ← 0x03` machine — 512
total cycles, and OAM byte 7 received the bus byte at `0x0307`. -/
theorem dma_transfer_witness :
    (Dma.run 0 256 dma_fix2).2 = 512 ∧
    (Dma.run 0 256 dma_fix2).1.oam 7 = dma_fix2.cpuMem (3 <<< 8 + 7) := by
  have h := dma_transfer 0 3 dma_fix2 rfl (by decide) rfl
  exact ⟨h.1, h.2.2.2 7 (by decide)⟩
